import Mathlib

/-!
Verification of the LLM invocation core of the autonomous test-generation
pipeline (`autonomous_llm_manager.py`): the response normalizer
`_clean_llm_response`, the provider-fallback state machine of
`AutonomousLLMManager` (`_initialize_llm` / `invoke`), and the
`GeminiLLMWrapper` adapter.

Strings are embedded as `List Char` (via `String.data`); Python string
primitives (`strip`, `find`, `rfind`, `split`, `startswith`, `endswith`,
slicing, and the one regex substitution used) are modelled below.  Python's
`str.strip()` removes Unicode whitespace; the model removes the ASCII
whitespace characters, which agree on every input considered here.
-/

/-- Whitespace as stripped by Python `str.strip()` (ASCII part). -/
def isPyWS (c : Char) : Bool :=
  c = ' ' || c = '\t' || c = '\n' || c = '\r' || c = Char.ofNat 11 || c = Char.ofNat 12

/-- Python `lstrip()`. -/
def trimLeft (l : List Char) : List Char := l.dropWhile isPyWS

/-- Python `rstrip()`. -/
def trimRight : List Char → List Char
  | [] => []
  | c :: t =>
    match trimRight t with
    | [] => if isPyWS c then [] else [c]
    | r => c :: r

/-- Python `strip()`. -/
def pyStrip (l : List Char) : List Char := trimRight (trimLeft l)

/-- Python `haystack.find(needle)`: index of the leftmost occurrence, `none` for `-1`. -/
def find? : List Char → List Char → Option Nat
  | [], n => if n.isEmpty then some 0 else none
  | c :: t, n => if n.isPrefixOf (c :: t) then some 0 else (find? t n).map (· + 1)

/-- Python `haystack.rfind(needle)`: index of the rightmost occurrence, `none` for `-1`. -/
def rfind? : List Char → List Char → Option Nat
  | [], n => if n.isEmpty then some 0 else none
  | c :: t, n =>
    match rfind? t n with
    | some i => some (i + 1)
    | none => if n.isPrefixOf (c :: t) then some 0 else none

/-- Python `needle in haystack`. -/
def hasSub (l n : List Char) : Bool := (find? l n).isSome

/-- Python `text.split("\n")`. -/
def splitNL : List Char → List (List Char)
  | [] => [[]]
  | c :: t =>
    if c = '\n' then [] :: splitNL t
    else
      match splitNL t with
      | [] => [[c]]
      | line :: rest => (c :: line) :: rest

/-- Python `"\n".join(lines)`. -/
def joinNL (ls : List (List Char)) : List Char := List.intercalate ['\n'] ls

/-- The characters `{` and `}` (written via code points). -/
def lbrace : Char := Char.ofNat 123

def rbrace : Char := Char.ofNat 125

/-- Needle `//`. -/
def slashes : List Char := ['/', '/']

def httpStr : List Char := "http".data

def wwwStr : List Char := "www".data

def fenceMark : List Char := "```".data

def fenceJava : List Char := "```java".data

def fenceJson : List Char := "```json".data

def pkgDecl : List Char := "package ".data

/-- Does the text match `\s*[}\]]` (optional whitespace then a closing brace or bracket)
at its start?  Used to model the regex `,(\s*[}\]])`. -/
def wsThenClose : List Char → Bool
  | [] => false
  | c :: t =>
    if c = rbrace || c = ']' then true
    else if isPyWS c then wsThenClose t else false

/-- Python `re.sub(r",(\s*[}\]])", r"\1", text)`: every comma followed by optional
whitespace and a closing `}`/`]` is deleted (the whitespace and bracket are kept).
Since a match consumes no comma beyond its first character, deleting each such
comma independently coincides with the left-to-right non-overlapping `re.sub`. -/
def removeTrailingCommas : List Char → List Char
  | [] => []
  | c :: t =>
    if c = ',' && wsThenClose t then removeTrailingCommas t
    else c :: removeTrailingCommas t

/-- Lines 194–199 of `autonomous_llm_manager.py`: strip a `//` comment from one line
unless the line mentions `http` or `www`. -/
def stripLineComment (line : List Char) : List Char :=
  if hasSub line slashes && !(hasSub line httpStr || hasSub line wwwStr) then
    match find? line slashes with
    | some i => trimRight (line.take i)
    | none => line
  else line

/-- The JSON branch of `_clean_llm_response` (lines 183–206): slice from the first
`{` to the last `}` when properly ordered, strip `//` comments line by line, and
remove trailing commas before closing braces/brackets. -/
def cleanJson (l : List Char) : List Char :=
  let l1 :=
    match find? l [lbrace], rfind? l [rbrace] with
    | some fb, some lb => if fb < lb then (l.drop fb).take (lb + 1 - fb) else l
    | _, _ => l
  let l2 := joinNL ((splitNL l1).map stripLineComment)
  removeTrailingCommas l2

/-- The Java branch of `_clean_llm_response` (lines 212–252): locate the start of
code (preferring a ```` ```java ```` fence, then any fence followed by a package
declaration, then the first `package `), strip any remaining leading fence,
re-locate `package ` if needed, strip a trailing fence, and truncate after the
last `}`. -/
def cleanJava (l : List Char) : List Char :=
  let start0 : Option Nat :=
    if hasSub l fenceJava then (find? l fenceJava).map (· + 7)
    else if hasSub l fenceMark then
      match find? l fenceMark with
      | some cbs => if hasSub (l.drop (cbs + 3)) pkgDecl then some (cbs + 3) else none
      | none => none
    else none
  let start1 : Option Nat :=
    match start0 with
    | some i => some i
    | none => find? l pkgDecl
  let l1 :=
    match start1 with
    | some i =>
      let t := l.drop i
      let t2 :=
        if fenceJava.isPrefixOf t then t.drop 7
        else if fenceMark.isPrefixOf t then t.drop 3
        else t
      if pkgDecl.isPrefixOf (pyStrip t2) then t2
      else
        match find? t2 pkgDecl with
        | some p => t2.drop p
        | none => t2
    | none => l
  let l2 := if fenceMark.isSuffixOf l1 then l1.take (l1.length - 3) else l1
  match rfind? l2 [rbrace] with
  | some i => l2.take (i + 1)
  | none => l2

/-- The fallback branch of `_clean_llm_response` (lines 255–263): strip one
leading ```` ```java ````/```` ```json ````/```` ``` ```` fence and one trailing
```` ``` ```` fence. -/
def cleanOther (l : List Char) : List Char :=
  let l1 :=
    if fenceJava.isPrefixOf l then l.drop 7
    else if fenceJson.isPrefixOf l then l.drop 7
    else if fenceMark.isPrefixOf l then l.drop 3
    else l
  if fenceMark.isSuffixOf l1 then l1.take (l1.length - 3) else l1

/-- JSON-shape probe (lines 177–182). -/
def isJsonShape (l : List Char) : Bool :=
  hasSub l "\"name\"".data || hasSub l "\"signature\"".data ||
    hasSub l "\"summary\"".data || hasSub l "\"total_tests\"".data

/-- Java-shape probe (lines 209–211). -/
def isJavaShape (l : List Char) : Bool :=
  hasSub l pkgDecl && (hasSub l "public class".data || hasSub l "public interface".data)

/-- Whole cleaner on character lists: strip, classify, branch, strip again. -/
def cleanChars (l : List Char) : List Char :=
  let s := pyStrip l
  let r :=
    if isJsonShape s then cleanJson s
    else if isJavaShape s then cleanJava s
    else cleanOther s
  pyStrip r

/-- `_clean_llm_response` (lines 171–268 of `AutonomousLLMManager`; the body of
`GeminiLLMWrapper._clean_llm_response`, lines 311–408, is character-for-character
identical, so both are modelled by this one function). -/
def clean_llm_response (s : String) : String := String.mk (cleanChars s.data)

/-- Message roles accepted by `_convert_messages_to_prompt` (`SystemMessage`,
`HumanMessage`, or anything else, which falls to the `str(message.content)` branch). -/
inductive Role
  | system
  | human
  | other
deriving DecidableEq, Repr

/-- A LangChain-style role-tagged message. -/
structure Message where
  role : Role
  content : String
deriving DecidableEq, Repr

/-- The two LLM backends of the manager. -/
inductive Provider
  | gemini
  | openai
deriving DecidableEq, Repr

/-- `GeminiLLMWrapper._convert_messages_to_prompt` (lines 297–309): flatten the
message list to one prompt string, `"System: …"` / `"Human: …"` per role, joined
by blank lines. -/
def convert_messages_to_prompt (messages : List Message) : String :=
  String.intercalate "\n\n" (messages.map fun m =>
    match m.role with
    | .system => "System: " ++ m.content
    | .human => "Human: " ++ m.content
    | .other => m.content)

/-- The external world for one logical `invoke` call: whether each adapter's
construction (`_try_gemini` / `_try_openai`) succeeds, and what each backend
returns for a given request (`some raw` for a raw-text response, `none` when the
backend raises). -/
structure Env where
  tryGeminiOk : Bool
  tryOpenaiOk : Bool
  geminiGenerate : String → Option String
  openaiInvoke : List Message → Option String

/-- Content produced by one adapter call, `none` when the call raises.
`GeminiLLMWrapper.invoke` (lines 279–295) flattens the messages, calls
`generate_content`, and returns `GeminiResponse(self._clean_llm_response(raw))`;
the OpenAI `ChatOpenAI` adapter returns the backend content unmodified. -/
def adapterContent (env : Env) (p : Provider) (messages : List Message) : Option String :=
  match p with
  | .gemini => (env.geminiGenerate (convert_messages_to_prompt messages)).map clean_llm_response
  | .openai => env.openaiInvoke messages

/-- Mutable state of `AutonomousLLMManager`: the two credential flags (Python
tests the strings only for truthiness, so they are modelled as `Bool`), the
`current_provider` tag, and which backend the constructed `self.llm` adapter
speaks to. -/
structure AutonomousLLMManager where
  gemini_api_key : Bool
  openai_api_key : Bool
  current_provider : Provider
  llm : Provider
deriving DecidableEq, Repr

/-- Error raised by `_initialize_llm` when neither provider can be constructed
(line 57: `"Both Gemini and OpenAI API keys are missing or invalid"`). -/
inductive InitError
  | noProviderAvailable
deriving DecidableEq, Repr

/-- Errors raised by `AutonomousLLMManager.invoke`: line 133/152
(`"Both {current_provider} and fallback API failed"`) and line 157
(`"No fallback available for {current_provider}"`), each carrying the
`current_provider` interpolated into the message. -/
inductive InvokeError
  | allProvidersExhausted (active : Provider)
  | noFallbackAvailable (active : Provider)
deriving DecidableEq, Repr

/-- `__init__` / `_initialize_llm` (lines 20–57): try Gemini first when its key
is present, then OpenAI, else raise. -/
def initAutonomousLLMManager (geminiKey openaiKey : Bool) (env : Env) :
    Except InitError AutonomousLLMManager :=
  if geminiKey && env.tryGeminiOk then
    Except.ok ⟨geminiKey, openaiKey, Provider.gemini, Provider.gemini⟩
  else if openaiKey && env.tryOpenaiOk then
    Except.ok ⟨geminiKey, openaiKey, Provider.openai, Provider.openai⟩
  else Except.error InitError.noProviderAvailable

/-- Result of one `invoke` call: what the caller gets (normalized content or an
error), the manager state afterwards, and the trace of adapter calls issued
(`self.llm.invoke(messages, **kwargs)` occurrences, in order). -/
structure InvokeOutcome where
  result : Except InvokeError String
  state : AutonomousLLMManager
  calls : List (Provider × List Message)
deriving Repr

/-- `AutonomousLLMManager.invoke` (lines 104–157): call the active adapter and
clean the response content; on failure, when the other provider's key is
present, construct its adapter, update `current_provider`, and retry the same
messages once (cleaning that response too); a second failure, or a fallback
construction failure, raises `"Both … and fallback API failed"`; with no
alternate key, raise `"No fallback available …"` leaving the state untouched. -/
def AutonomousLLMManager.invoke (self : AutonomousLLMManager) (env : Env)
    (messages : List Message) : InvokeOutcome :=
  match adapterContent env self.llm messages with
  | some content =>
      ⟨Except.ok (clean_llm_response content), self, [(self.llm, messages)]⟩
  | none =>
    match self.current_provider with
    | .gemini =>
      if self.openai_api_key then
        if env.tryOpenaiOk then
          let st := { self with llm := Provider.openai, current_provider := Provider.openai }
          match adapterContent env .openai messages with
          | some content =>
              ⟨Except.ok (clean_llm_response content), st,
                [(self.llm, messages), (Provider.openai, messages)]⟩
          | none =>
              ⟨Except.error (InvokeError.allProvidersExhausted Provider.openai), st,
                [(self.llm, messages), (Provider.openai, messages)]⟩
        else
          ⟨Except.error (InvokeError.allProvidersExhausted Provider.gemini), self,
            [(self.llm, messages)]⟩
      else
        ⟨Except.error (InvokeError.noFallbackAvailable Provider.gemini), self,
          [(self.llm, messages)]⟩
    | .openai =>
      if self.gemini_api_key then
        if env.tryGeminiOk then
          let st := { self with llm := Provider.gemini, current_provider := Provider.gemini }
          match adapterContent env .gemini messages with
          | some content =>
              ⟨Except.ok (clean_llm_response content), st,
                [(self.llm, messages), (Provider.gemini, messages)]⟩
          | none =>
              ⟨Except.error (InvokeError.allProvidersExhausted Provider.gemini), st,
                [(self.llm, messages), (Provider.gemini, messages)]⟩
        else
          ⟨Except.error (InvokeError.allProvidersExhausted Provider.openai), self,
            [(self.llm, messages)]⟩
      else
        ⟨Except.error (InvokeError.noFallbackAvailable Provider.openai), self,
          [(self.llm, messages)]⟩

/-! Helper lemmas about the string primitives. -/

theorem trimRight_cons (c : Char) (t : List Char) :
    trimRight (c :: t) =
      match trimRight t with
      | [] => if isPyWS c then [] else [c]
      | r => c :: r := rfl

theorem trimRight_trimRight (l : List Char) : trimRight (trimRight l) = trimRight l := by
  induction l with
  | nil => rfl
  | cons c t ih =>
    rw [trimRight_cons]
    cases h : trimRight t with
    | nil =>
      cases hc : isPyWS c
      · simp only [hc]
        rw [if_neg (by simp), trimRight_cons]
        rw [show trimRight ([] : List Char) = [] from rfl]
        simp [hc]
      · simp only [hc, if_pos rfl]
        rfl
    | cons r rs =>
      rw [h] at ih
      simp only
      rw [trimRight_cons, ih]

theorem trimLeft_trimLeft (l : List Char) : trimLeft (trimLeft l) = trimLeft l := by
  unfold trimLeft
  exact List.dropWhile_idempotent ..

theorem trimLeft_trimRight (l : List Char) (h : trimLeft l = l) :
    trimLeft (trimRight l) = trimRight l := by
  cases l with
  | nil => rfl
  | cons c t =>
    have hc : isPyWS c = false := by
      cases hx : isPyWS c
      · rfl
      · exfalso
        unfold trimLeft at h
        rw [List.dropWhile_cons, if_pos hx] at h
        have hle := (List.dropWhile_suffix (p := isPyWS) (l := t)).length_le
        rw [h] at hle
        simp at hle
    rw [trimRight_cons]
    cases hr : trimRight t with
    | nil => simp [hc, trimLeft]
    | cons r rs => simp [trimLeft, hc]

theorem pyStrip_idem (l : List Char) : pyStrip (pyStrip l) = pyStrip l := by
  unfold pyStrip
  rw [trimLeft_trimRight (trimLeft l) (trimLeft_trimLeft l), trimRight_trimRight]

/-- Characterization of `find?`: a returned index is an occurrence of the needle,
and it is the leftmost one. -/
theorem find?_spec (n : List Char) (h : List Char) :
    ∀ i, find? h n = some i →
      n.isPrefixOf (h.drop i) = true ∧ ∀ j, j < i → n.isPrefixOf (h.drop j) = false := by
  induction h with
  | nil =>
    intro i hf
    unfold find? at hf
    split at hf
    · next hn =>
      cases hf
      refine ⟨?_, fun j hj => absurd hj (by omega)⟩
      rw [List.isEmpty_iff.mp hn]
      rfl
    · exact absurd hf (by simp)
  | cons c t ih =>
    intro i hf
    unfold find? at hf
    split at hf
    · next hpre =>
      cases hf
      exact ⟨hpre, fun j hj => absurd hj (by omega)⟩
    · next hpre =>
      obtain ⟨k, hk, hik⟩ := Option.map_eq_some'.mp hf
      subst hik
      obtain ⟨hp, hmin⟩ := ih k hk
      refine ⟨by simpa using hp, ?_⟩
      intro j hj
      cases j with
      | zero =>
        simp only [List.drop_zero]
        cases hx : n.isPrefixOf (c :: t)
        · rfl
        · exact absurd hx hpre
      | succ j' =>
        simpa using hmin j' (by omega)

/-! Claim theorems. -/

/-- If the stripped input is classified `other` and carries no leading or
trailing fence, the cleaner returns the stripped input unchanged. -/
theorem cleanChars_other_eq (l : List Char)
    (hj : isJsonShape (pyStrip l) = false)
    (hv : isJavaShape (pyStrip l) = false)
    (h1 : fenceJava.isPrefixOf (pyStrip l) = false)
    (h2 : fenceJson.isPrefixOf (pyStrip l) = false)
    (h3 : fenceMark.isPrefixOf (pyStrip l) = false)
    (h4 : fenceMark.isSuffixOf (pyStrip l) = false) :
    cleanChars l = pyStrip l := by
  unfold cleanChars cleanOther
  simp only [hj, hv, h1, h2, h3, h4, Bool.false_eq_true, if_false]
  exact pyStrip_idem l

/-- A whitespace-only input strips to nothing and cleans to nothing. -/
theorem cleanChars_of_strip_nil (l : List Char) (h : pyStrip l = []) : cleanChars l = [] := by
  unfold cleanChars
  rw [h]
  decide

/-- C7: within JSON-shape cleaning, a line containing `//` but neither `http`
nor `www` is truncated at the first `//` (the returned index is the leftmost
occurrence) with trailing whitespace removed, and a line containing `http` or
`www` is left untouched. -/
theorem comment_stripping_spec (line : List Char) :
    (hasSub line slashes = true → hasSub line httpStr = false → hasSub line wwwStr = false →
      ∃ i, find? line slashes = some i ∧
        slashes.isPrefixOf (line.drop i) = true ∧
        (∀ j, j < i → slashes.isPrefixOf (line.drop j) = false) ∧
        stripLineComment line = trimRight (line.take i)) ∧
    (hasSub line httpStr = true ∨ hasSub line wwwStr = true →
      stripLineComment line = line) := by
  constructor
  · intro hs hh hw
    have hs' := hs
    unfold hasSub at hs'
    obtain ⟨i, hi⟩ := Option.isSome_iff_exists.mp hs'
    obtain ⟨hp, hmin⟩ := find?_spec slashes line i hi
    refine ⟨i, hi, hp, hmin, ?_⟩
    simp [stripLineComment, hs, hh, hw, hi]
  · intro h
    cases h with
    | inl h => simp [stripLineComment, h]
    | inr h => simp [stripLineComment, h]

/-- C7 witness: `value: 5 // drop me` is truncated to `value: 5`, while the same
line with a URL after `//` is preserved. -/
theorem comment_stripping_witness :
    stripLineComment "value: 5 // drop me".data = "value: 5".data ∧
    stripLineComment "value: 5 // see http://example.com".data =
      "value: 5 // see http://example.com".data := by
  constructor
  · obtain ⟨i, hi, hp, hmin, heq⟩ :=
      (comment_stripping_spec "value: 5 // drop me".data).1 (by decide) (by decide) (by decide)
    have h9 : i = 9 := by
      have hfind : find? "value: 5 // drop me".data slashes = some 9 := by decide
      rw [hfind] at hi
      exact (Option.some.inj hi).symm
    rw [heq, h9]
    decide
  · exact (comment_stripping_spec _).2 (Or.inl (by decide))

/-- C4: the cleaner is a total function of the input string (it is a Lean `def`
of type `String → String`, so it can raise nothing); for the empty input it
returns the empty string, for whitespace-only input it returns the empty
string, and for `other`-shaped input with no fence markers it returns the
trimmed input unchanged. -/
theorem clean_total_spec (s : String) :
    (s = "" → clean_llm_response s = "") ∧
    ((∀ c ∈ s.data, isPyWS c = true) → clean_llm_response s = "") ∧
    (isJsonShape (pyStrip s.data) = false →
      isJavaShape (pyStrip s.data) = false →
      fenceJava.isPrefixOf (pyStrip s.data) = false →
      fenceJson.isPrefixOf (pyStrip s.data) = false →
      fenceMark.isPrefixOf (pyStrip s.data) = false →
      fenceMark.isSuffixOf (pyStrip s.data) = false →
      clean_llm_response s = String.mk (pyStrip s.data)) := by
  refine ⟨?_, ?_, ?_⟩
  · rintro rfl
    decide
  · intro hws
    have h0 : pyStrip s.data = [] := by
      unfold pyStrip trimLeft
      rw [show List.dropWhile isPyWS s.data = [] from
        List.dropWhile_eq_nil_iff.mpr (fun c hc => hws c hc)]
      rfl
    unfold clean_llm_response
    rw [cleanChars_of_strip_nil s.data h0]
  · intro hj hv h1 h2 h3 h4
    unfold clean_llm_response
    rw [cleanChars_other_eq s.data hj hv h1 h2 h3 h4]

/-- C4 witness: the three cases at concrete inputs, including a garbage input
whose cleaned form is just its trimmed text. -/
theorem clean_total_witness :
    clean_llm_response "" = "" ∧
    clean_llm_response "  \t\n " = "" ∧
    clean_llm_response " arbitrary garbage ~!@# " =
      String.mk (pyStrip " arbitrary garbage ~!@# ".data) :=
  ⟨(clean_total_spec "").1 rfl,
   (clean_total_spec "  \t\n ").2.1 (by decide),
   (clean_total_spec " arbitrary garbage ~!@# ").2.2 (by decide) (by decide) (by decide)
     (by decide) (by decide) (by decide)⟩

/-- C5: on the input `noise {"name": "x", "total_tests": 3,}\nnoise` the cleaner
returns exactly `{"name": "x", "total_tests": 3}`: the noise outside the first
`{` and last `}` is stripped and the trailing comma before the closing brace is
removed. -/
theorem clean_json_sample :
    clean_llm_response "noise \x7b\"name\": \"x\", \"total_tests\": 3,\x7d\nnoise" =
      "\x7b\"name\": \"x\", \"total_tests\": 3\x7d" := by decide

/-- C6: on the input `Here is the code:\n```java\npackage a.b;\npublic class X {}\n```\nHope this helps!`
the cleaner returns exactly `package a.b;\npublic class X {}`: the prose before
the fenced block, the fence markers, and the prose after the last closing brace
are removed. -/
theorem clean_java_sample :
    clean_llm_response
        "Here is the code:\n```java\npackage a.b;\npublic class X \x7b\x7d\n```\nHope this helps!" =
      "package a.b;\npublic class X \x7b\x7d" := by decide

/-- C3: with both credentials present and the Gemini (primary) provider active,
a failed primary call makes `invoke` construct the OpenAI adapter, switch
`current_provider` (and `llm`) to OpenAI, and retry the same message sequence
exactly once (the call trace is `[(gemini, messages), (openai, messages)]`);
when the retry succeeds its cleaned content is returned without error. -/
theorem fallback_switch_spec (st : AutonomousLLMManager) (env : Env)
    (messages : List Message) (raw : String)
    (hcur : st.current_provider = Provider.gemini)
    (hllm : st.llm = Provider.gemini)
    (hkey : st.openai_api_key = true)
    (hctor : env.tryOpenaiOk = true)
    (hfail : env.geminiGenerate (convert_messages_to_prompt messages) = none)
    (hok : env.openaiInvoke messages = some raw) :
    st.invoke env messages =
      ⟨Except.ok (clean_llm_response raw),
       { st with current_provider := Provider.openai, llm := Provider.openai },
       [(Provider.gemini, messages), (Provider.openai, messages)]⟩ := by
  simp [AutonomousLLMManager.invoke, adapterContent, hcur, hllm, hkey, hctor, hfail, hok]

/-- C3 witness: a concrete manager with both keys, a failing Gemini backend and
a succeeding OpenAI backend. -/
theorem fallback_switch_witness :
    (⟨true, true, Provider.gemini, Provider.gemini⟩ : AutonomousLLMManager).invoke
        ⟨true, true, fun _ => none, fun _ => some "answer"⟩ [⟨Role.human, "hi"⟩] =
      ⟨Except.ok (clean_llm_response "answer"),
       ⟨true, true, Provider.openai, Provider.openai⟩,
       [(Provider.gemini, [⟨Role.human, "hi"⟩]), (Provider.openai, [⟨Role.human, "hi"⟩])]⟩ :=
  fallback_switch_spec _ _ _ _ rfl rfl rfl rfl rfl rfl

/-- C1 counterexample: after a double failure the manager is not in a dead
`Failed` state.  Concretely, the first `invoke` fails on both providers and
leaves `current_provider = openai`; a second `invoke` on the very same state,
issued when the OpenAI backend has recovered, succeeds — so it is false that
every subsequent `invoke` on the same instance also fails. -/
theorem failed_state_resurrection_counterexample :
    ((⟨true, true, Provider.gemini, Provider.gemini⟩ : AutonomousLLMManager).invoke
        ⟨true, true, fun _ => none, fun _ => none⟩ []).result =
      Except.error (InvokeError.allProvidersExhausted Provider.openai) ∧
    (((⟨true, true, Provider.gemini, Provider.gemini⟩ : AutonomousLLMManager).invoke
        ⟨true, true, fun _ => none, fun _ => none⟩ []).state.invoke
        ⟨true, true, fun _ => none, fun _ => some "recovered"⟩ []).result =
      Except.ok "recovered" := by
  exact ⟨rfl, rfl⟩

/-- C1 amended: when both providers fail on one logical call the caller receives
the `"Both … and fallback API failed"` error (the `AllProvidersExhausted`
analogue), and the manager's state becomes the fallback provider — the code has
no `Failed` state; a subsequent `invoke` on the same instance retries the
now-active provider and succeeds whenever that provider succeeds, so there is
no latch-out and resurrection is possible. -/
theorem double_failure_spec (st : AutonomousLLMManager) (env env' : Env)
    (messages messages' : List Message) (raw : String)
    (hcur : st.current_provider = Provider.gemini)
    (hllm : st.llm = Provider.gemini)
    (hkey : st.openai_api_key = true)
    (hctor : env.tryOpenaiOk = true)
    (hfail1 : env.geminiGenerate (convert_messages_to_prompt messages) = none)
    (hfail2 : env.openaiInvoke messages = none) :
    (st.invoke env messages).result =
        Except.error (InvokeError.allProvidersExhausted Provider.openai) ∧
    (st.invoke env messages).state =
        { st with current_provider := Provider.openai, llm := Provider.openai } ∧
    (env'.openaiInvoke messages' = some raw →
      ((st.invoke env messages).state.invoke env' messages').result =
        Except.ok (clean_llm_response raw)) := by
  have hmain : st.invoke env messages =
      ⟨Except.error (InvokeError.allProvidersExhausted Provider.openai),
       { st with current_provider := Provider.openai, llm := Provider.openai },
       [(Provider.gemini, messages), (Provider.openai, messages)]⟩ := by
    simp [AutonomousLLMManager.invoke, adapterContent, hcur, hllm, hkey, hctor, hfail1, hfail2]
  refine ⟨by rw [hmain], by rw [hmain], fun hok => ?_⟩
  rw [hmain]
  simp [AutonomousLLMManager.invoke, adapterContent, hok]

/-- C1 amended, witness: the double failure and the recovered retry at concrete
states and environments. -/
theorem double_failure_witness :
    ((⟨true, true, Provider.gemini, Provider.gemini⟩ : AutonomousLLMManager).invoke
        ⟨true, true, fun _ => none, fun _ => none⟩ [⟨Role.human, "q"⟩]).result =
      Except.error (InvokeError.allProvidersExhausted Provider.openai) ∧
    (((⟨true, true, Provider.gemini, Provider.gemini⟩ : AutonomousLLMManager).invoke
        ⟨true, true, fun _ => none, fun _ => none⟩ [⟨Role.human, "q"⟩]).state.invoke
        ⟨true, true, fun _ => none, fun _ => some "back"⟩ [⟨Role.human, "q"⟩]).result =
      Except.ok (clean_llm_response "back") := by
  obtain ⟨h1, _, h3⟩ :=
    double_failure_spec ⟨true, true, Provider.gemini, Provider.gemini⟩
      ⟨true, true, fun _ => none, fun _ => none⟩
      ⟨true, true, fun _ => none, fun _ => some "back"⟩
      [⟨Role.human, "q"⟩] [⟨Role.human, "q"⟩] "back" rfl rfl rfl rfl rfl rfl
  exact ⟨h1, h3 rfl⟩

/-- C8: when neither credential yields a successfully constructed adapter
(either key absent or its adapter construction failing), `__init__` itself
fails with the `NoProviderAvailable` error, so no manager instance exists and
no invocation can ever be issued. -/
theorem no_provider_available_spec (geminiKey openaiKey : Bool) (env : Env)
    (h1 : (geminiKey && env.tryGeminiOk) = false)
    (h2 : (openaiKey && env.tryOpenaiOk) = false) :
    initAutonomousLLMManager geminiKey openaiKey env =
      Except.error InitError.noProviderAvailable := by
  unfold initAutonomousLLMManager
  rw [h1, h2]
  simp

/-- C8 witness: no credentials at all. -/
theorem no_provider_available_witness :
    initAutonomousLLMManager false false ⟨true, true, fun _ => none, fun _ => none⟩ =
      Except.error InitError.noProviderAvailable :=
  no_provider_available_spec false false _ rfl rfl

/-- C9: when the active adapter is Gemini, `invoke` returns the cleaner applied
twice to the raw backend text (once inside `GeminiLLMWrapper.invoke`, once in
`AutonomousLLMManager.invoke`); on the OpenAI path it is applied once; hence on
any raw text where the cleaner is not idempotent the two providers give the
caller different content for the same raw backend output. -/
theorem gemini_double_clean_spec (st st' : AutonomousLLMManager) (env env' : Env)
    (messages : List Message) (raw : String)
    (hg : st.llm = Provider.gemini)
    (ho : st'.llm = Provider.openai)
    (hge : env.geminiGenerate (convert_messages_to_prompt messages) = some raw)
    (hoe : env'.openaiInvoke messages = some raw) :
    (st.invoke env messages).result =
        Except.ok (clean_llm_response (clean_llm_response raw)) ∧
    (st'.invoke env' messages).result = Except.ok (clean_llm_response raw) ∧
    (clean_llm_response (clean_llm_response raw) ≠ clean_llm_response raw →
      (st.invoke env messages).result ≠ (st'.invoke env' messages).result) := by
  have hA : (st.invoke env messages).result =
      Except.ok (clean_llm_response (clean_llm_response raw)) := by
    simp [AutonomousLLMManager.invoke, adapterContent, hg, hge]
  have hB : (st'.invoke env' messages).result = Except.ok (clean_llm_response raw) := by
    simp [AutonomousLLMManager.invoke, adapterContent, ho, hoe]
  refine ⟨hA, hB, fun hne => ?_⟩
  rw [hA, hB]
  intro hcontra
  exact hne (Except.ok.inj hcontra)

/-- C9 witness: on the raw text `` ```json```java X {} `` (where the cleaner is
not idempotent) the Gemini path and the OpenAI path hand the caller different
content. -/
theorem gemini_double_clean_witness :
    ((⟨true, true, Provider.gemini, Provider.gemini⟩ : AutonomousLLMManager).invoke
        ⟨true, true, fun _ => some "```json```java X \x7b\x7d", fun _ => none⟩ []).result ≠
    ((⟨true, true, Provider.openai, Provider.openai⟩ : AutonomousLLMManager).invoke
        ⟨true, true, fun _ => none, fun _ => some "```json```java X \x7b\x7d"⟩ []).result :=
  (gemini_double_clean_spec _ _ _ _ _ _ rfl rfl rfl rfl).2.2 (by decide)

/-- C10: if the active adapter's call fails and the alternate provider's
credential is absent, `invoke` raises `"No fallback available …"` and the
manager state is completely unchanged — the same `current_provider` and the
same `llm` adapter before and after. -/
theorem no_fallback_state_unchanged_spec (st : AutonomousLLMManager) (env : Env)
    (messages : List Message)
    (hfail : adapterContent env st.llm messages = none)
    (hg : st.current_provider = Provider.gemini → st.openai_api_key = false)
    (ho : st.current_provider = Provider.openai → st.gemini_api_key = false) :
    (st.invoke env messages).result =
        Except.error (InvokeError.noFallbackAvailable st.current_provider) ∧
    (st.invoke env messages).state = st := by
  unfold AutonomousLLMManager.invoke
  rw [hfail]
  cases hcur : st.current_provider with
  | gemini => simp [hg hcur]
  | openai => simp [ho hcur]

/-- C10 witness: Gemini active with no OpenAI key; the failed call surfaces the
no-fallback error with the state intact. -/
theorem no_fallback_state_unchanged_witness :
    ((⟨true, false, Provider.gemini, Provider.gemini⟩ : AutonomousLLMManager).invoke
        ⟨true, true, fun _ => none, fun _ => none⟩ []).result =
      Except.error (InvokeError.noFallbackAvailable Provider.gemini) ∧
    ((⟨true, false, Provider.gemini, Provider.gemini⟩ : AutonomousLLMManager).invoke
        ⟨true, true, fun _ => none, fun _ => none⟩ []).state =
      ⟨true, false, Provider.gemini, Provider.gemini⟩ :=
  no_fallback_state_unchanged_spec _ _ _ rfl (fun _ => rfl)
    (fun h => absurd h (by decide))

/-- C2 counterexample: the cleaner is not idempotent.  On the input
`` ```json```java X {} `` the first pass strips only the leading ```` ```json ````
fence, leaving `` ```java X {} ``, and a second pass strips the now-leading
```` ```java ```` fence as well, so `clean (clean x) ≠ clean x`. -/
theorem clean_not_idempotent_counterexample :
    clean_llm_response (clean_llm_response "```json```java X \x7b\x7d") ≠
      clean_llm_response "```json```java X \x7b\x7d" := by decide

/-- C2 amended: the cleaner is idempotent on the spec's sampled inputs (the
JSON-shape sample, the source-code sample, and the empty string), though not on
every input string. -/
theorem clean_idempotent_on_sampled_inputs :
    (clean_llm_response
        (clean_llm_response "noise \x7b\"name\": \"x\", \"total_tests\": 3,\x7d\nnoise") =
      clean_llm_response "noise \x7b\"name\": \"x\", \"total_tests\": 3,\x7d\nnoise") ∧
    (clean_llm_response
        (clean_llm_response
          "Here is the code:\n```java\npackage a.b;\npublic class X \x7b\x7d\n```\nHope this helps!") =
      clean_llm_response
        "Here is the code:\n```java\npackage a.b;\npublic class X \x7b\x7d\n```\nHope this helps!") ∧
    clean_llm_response (clean_llm_response "") = clean_llm_response "" := by
  refine ⟨by decide, by decide, by decide⟩

